import Mathlib

/-!
Verification of the pandas-metricsreader specification against a shallow
embedding of the repository code.

The embedding models, from the source:
* the column-label splitters `GraphiteReader._create_multiindex`
  (graphite/graphite.py) and `PNP4NagiosReader._create_multiindex`
  (PNP4Nagios/pnp4nagios.py and the legacy pnp4nagios.py),
* the timestamp conversion of the series parsers, including the int32
  coercion of the PNP4Nagios index,
* the series parsers of the three reader modules (empty-payload handling),
* `BaseReader._get` (status-code gate),
* the `read` dispatch of both reader facades,
* `GraphiteReader.walk`.

Python strings are Lean `String`s, Python lists are Lean `List`s, Python
integers are `Int`/`Nat` with explicit wrap-around where numpy dtypes
truncate, and raised exceptions are an explicit error type.
-/

namespace MetricsReader

/-- A Python exception, as far as the modelled code distinguishes them.
`metricsReaderError` is the library error class of BaseReader.py; the
others are builtin Python exceptions that the code can raise or propagate. -/
inductive PyExc where
  | metricsReaderError (msg : String)
  | typeError (msg : String)
  | keyError (key : String)
  | attributeError (msg : String)
  | transportError (msg : String)
  deriving DecidableEq, Repr

/-- Splitting a character list on a separator character, keeping empty
fields, as Python `str.split(sep)` does. -/
def pySplitList (c : Char) : List Char → List (List Char)
  | [] => [[]]
  | ch :: rest =>
    if ch = c then [] :: pySplitList c rest
    else
      match pySplitList c rest with
      | [] => [[ch]]
      | g :: gs => (ch :: g) :: gs

/-- Python `s.split(c)` for a one-character separator `c`: empty fields are
kept and the empty string splits to `[""]`. -/
def pySplit (s : String) (c : Char) : List String :=
  (pySplitList c s.toList).map String.mk

/-- Python `s.strip(c)` for a one-character strip set: remove leading and
trailing occurrences of `c`. -/
def pyStrip (s : String) (c : Char) : String :=
  String.mk (((s.toList.dropWhile (· = c)).reverse.dropWhile (· = c)).reverse)

/-- Python `s.rstrip(".*")`: remove trailing characters that are a dot
or an asterisk. -/
def pyRstripDotStar (s : String) : String :=
  String.mk ((s.toList.reverse.dropWhile (fun ch => ch = '.' || ch = '*')).reverse)

/-- The innermost loop of `GraphiteReader._create_multiindex`:
`for idx, names in enumerate(zip(column, sec_column))`, appending `idx`
to the accumulated `row_idx` when the two components differ and `idx`
is not yet recorded. -/
def recordDiffs (acc : List Nat) (c1 c2 : List String) : List Nat :=
  (List.enum (c1.zip c2)).foldl
    (fun a p => if p.2.1 ≠ p.2.2 ∧ p.1 ∉ a then a ++ [p.1] else a) acc

/-- The pairwise comparison loops of `GraphiteReader._create_multiindex`:
`for index, column in enumerate(columns[:-1])` with the inner loop over
`columns[index+1:]`, threading the mutable `row_idx` list through every
ordered pair. -/
def collectRowIdx : List (List String) → List Nat → List Nat
  | [], acc => acc
  | c :: rest, acc => collectRowIdx rest (rest.foldl (fun a sc => recordDiffs a c sc) acc)

/-- The `max_length` loop of `GraphiteReader._create_multiindex`. -/
def maxLen (columns : List (List String)) : Nat :=
  columns.foldl (fun m c => max m c.length) 0

/-- The padding loop of `GraphiteReader._create_multiindex`: extend every
shorter component list with empty strings up to `maxLen`. -/
def padColumns (columns : List (List String)) : List (List String) :=
  columns.map (fun c => c ++ List.replicate (maxLen columns - c.length) "")

/-- The label computation of `GraphiteReader._create_multiindex`: split every
column name on a dot, right-pad to equal arity, and - when
`remove_redundant_indices` is set and there is more than one name - keep,
in ascending index order, only the positions at which some pair of names
differs. The final pandas calls (`MultiIndex.from_tuples`, `sort_index`)
construct the index object from these label lists and are outside the model. -/
def graphiteCreateMultiindex (names : List String) (removeRedundant : Bool) :
    List (List String) :=
  let columns := names.map (fun n => pySplit n '.')
  let padded := padColumns columns
  if removeRedundant ∧ padded.length > 1 then
    let rowIdx := List.insertionSort (· ≤ ·) (collectRowIdx padded [])
    padded.map (fun c => rowIdx.map (fun i => c.getD i ""))
  else padded

/-- The label computation of `PNP4NagiosReader._create_multiindex` (identical
in the current and the legacy module): strip the separator from both ends of
each column name, then split on it. No padding is performed and there is no
redundancy-removal option; the separator `field_sep` is an underscore. -/
def pnpCreateMultiindex (names : List String) (sep : Char) : List (List String) :=
  names.map (fun n => pySplit (pyStrip n sep) sep)

theorem le_foldl_max (l : List (List String)) (m : Nat) :
    m ≤ l.foldl (fun a c => max a c.length) m := by
  induction l generalizing m with
  | nil => exact le_rfl
  | cons h t ih => exact le_trans (le_max_left _ _) (ih _)

theorem length_le_foldl_max (l : List (List String)) (c : List String)
    (h : c ∈ l) (m : Nat) : c.length ≤ l.foldl (fun a c => max a c.length) m := by
  induction l generalizing m with
  | nil => cases h
  | cons hd t ih =>
    rcases List.mem_cons.mp h with rfl | hc
    · exact le_trans (le_max_right m c.length) (le_foldl_max t _)
    · exact ih hc _

theorem length_le_maxLen (l : List (List String)) (c : List String)
    (h : c ∈ l) : c.length ≤ maxLen l :=
  length_le_foldl_max l c h 0

theorem padColumns_length (l : List (List String)) (c : List String)
    (h : c ∈ padColumns l) : c.length = maxLen l := by
  rcases List.mem_map.mp h with ⟨c0, hc0, rfl⟩
  have hle : c0.length ≤ maxLen l := length_le_maxLen l c0 hc0
  simp [List.length_append, List.length_replicate]
  omega

/-- C1: for names `["a.b.x", "a.b.y"]` with separator `.` and
`removeRedundant = true`, the splitter drops the two constant positions and
keeps only position 2, producing the labels `[["x"], ["y"]]`. -/
theorem graphite_redundant_removal_example :
    graphiteCreateMultiindex ["a.b.x", "a.b.y"] true = [["x"], ["y"]] := by
  decide

/-- C2 (amended): with `removeRedundant = false`, every label produced by the
dot-separated Graphite splitter has length equal to the maximum component
count over all names of the batch; the underscore-separated PNP4Nagios
splitter does not pad (see `pnp_no_padding_counterexample`). -/
theorem graphite_padding_invariant (names : List String) (hne : names ≠ [])
    (c : List String) (hc : c ∈ graphiteCreateMultiindex names false) :
    c.length = maxLen (names.map (fun n => pySplit n '.')) := by
  have : graphiteCreateMultiindex names false
      = padColumns (names.map (fun n => pySplit n '.')) := by
    simp [graphiteCreateMultiindex]
  rw [this] at hc
  exact padColumns_length _ c hc

/-- Witness for `graphite_padding_invariant` at a concrete input. -/
theorem graphite_padding_invariant_witness :
    (["a.b", "c"] : List String) ≠ [] ∧
      (["c", ""] : List String).length
        = maxLen (["a.b", "c"].map (fun n => pySplit n '.')) :=
  ⟨by decide, graphite_padding_invariant ["a.b", "c"] (by decide) ["c", ""] (by decide)⟩

/-- C2 counterexample: the PNP4Nagios variant performs no padding, so for the
names `["a_b", "a"]` the output tuples have lengths 2 and 1 - not all equal
to the maximum component count 2, contradicting the claim that the
equal-length invariant holds for both backend variants. -/
theorem pnp_no_padding_counterexample :
    pnpCreateMultiindex ["a_b", "a"] '_' = [["a", "b"], ["a"]] ∧
      ¬ (∀ c ∈ pnpCreateMultiindex ["a_b", "a"] '_', c.length = 2) := by
  constructor
  · decide
  · intro h
    have := h ["a"] (by decide)
    simp at this

/-- C8: for the names `["a.b", "a.b"]` with `removeRedundant = true`, no
position is significant, so both labels collapse to the empty tuple and the
splitter returns normally. -/
theorem graphite_all_identical_collapse :
    graphiteCreateMultiindex ["a.b", "a.b"] true = [[], []] := by
  decide

/-- C9: with exactly one name the `removeRedundant` flag has no effect: both
settings return the (trivially padded) split of that single name. -/
theorem graphite_single_name_noop (name : String) :
    graphiteCreateMultiindex [name] true = graphiteCreateMultiindex [name] false ∧
      graphiteCreateMultiindex [name] true = [pySplit name '.'] := by
  have hsingle : ∀ b : Bool, graphiteCreateMultiindex [name] b = [pySplit name '.'] := by
    intro b
    simp [graphiteCreateMultiindex, padColumns, maxLen]
  exact ⟨(hsingle true).trans (hsingle false).symm, hsingle true⟩

/-- A decoded JSON value, as returned by `response.json()`. JSON numbers are
modelled as integers: every numeric field the modelled code inspects
(epoch-second timestamps, `leaf` / `allowChildren` flags) is integral. -/
inductive JVal where
  | null
  | bool (b : Bool)
  | num (n : Int)
  | str (s : String)
  | arr (elems : List JVal)
  | obj (fields : List (String × JVal))
  deriving Repr

/-- A timezone-tagged instant: nanoseconds since the epoch together with the
timezone tag that `tz_localize` attaches. -/
structure Instant where
  ns : Int
  tz : String
  deriving DecidableEq, Repr

/-- numpy `np.array(-, dtype=np.int32)` applied to an integer: two-complement
wrap-around into the interval `[-2^31, 2^31)`. -/
def toInt32 (t : Int) : Int :=
  (t + 2 ^ 31) % 2 ^ 32 - 2 ^ 31

/-- Timestamp conversion of `PNP4NagiosReader._read_single_metric` (current
and legacy module alike): the row index is first materialised as
`np.array(index, dtype=np.int32)`, then `(index.values * 1e9).astype(int)`
is taken and `tz_localize('UTC')` applied. Within the int32 range the float64
product with 1e9 is exact (`|t| * 5^9 < 2^53`), so the model multiplies
exactly after the int32 wrap. -/
def pnpRowKey (t : Int) : Instant :=
  ⟨toInt32 t * 1000000000, "UTC"⟩

/-- Timestamp conversion of `GraphiteReader._download_single_metric`:
`to_datetime((df.index.values * 1e9).astype(int)).tz_localize('UTC')` with no
int32 coercion. The model multiplies exactly; the float64 product `t * 1e9`
is exact precisely when `|t| * 5^9 ≤ 2^53`, i.e. `|t| ≤ 4611686018`, and
theorems about this definition are stated under that bound. -/
def graphiteRowKey (t : Int) : Instant :=
  ⟨t * 1000000000, "UTC"⟩

/-- C4 counterexample: the PNP4Nagios parsers coerce the epoch-seconds index
to int32, so the representable integer timestamp `2^31` wraps to `-2^31` and
the resulting row key does not represent `2^31` seconds after the epoch. -/
theorem pnp_timestamp_wrap_counterexample :
    pnpRowKey 2147483648 = ⟨-2147483648 * 1000000000, "UTC"⟩ ∧
      pnpRowKey 2147483648 ≠ ⟨2147483648 * 1000000000, "UTC"⟩ := by
  constructor
  · decide
  · decide

/-- C4 (amended): both series parsers convert an integer epoch-seconds
timestamp `t` to the UTC-tagged instant `t * 10^9` nanoseconds - but only on
a bounded range, not for all representable integers: the PNP4Nagios readers
wrap the index to int32 first, so the conversion is exact exactly for
`-2^31 ≤ t < 2^31` (within which the Graphite conversion, whose float64
product is exact up to `|t| ≤ 4611686018`, agrees as well). -/
theorem timestamp_conversion_exact (t : Int)
    (h1 : -(2 ^ 31) ≤ t) (h2 : t < 2 ^ 31) :
    pnpRowKey t = ⟨t * 1000000000, "UTC"⟩ ∧
      graphiteRowKey t = ⟨t * 1000000000, "UTC"⟩ := by
  have ht : toInt32 t = t := by
    unfold toInt32
    omega
  exact ⟨by simp [pnpRowKey, ht], rfl⟩

/-- Witness for `timestamp_conversion_exact` at `t = 3`. -/
theorem timestamp_conversion_exact_witness :
    -(2 ^ 31) ≤ (3 : Int) ∧ (3 : Int) < 2 ^ 31 ∧
      pnpRowKey 3 = ⟨3 * 1000000000, "UTC"⟩ ∧
      graphiteRowKey 3 = ⟨3 * 1000000000, "UTC"⟩ :=
  ⟨by decide, by decide, timestamp_conversion_exact 3 (by decide) (by decide)⟩

/-- An HTTP response as consumed by `BaseReader._get`: the resolved request
url (`r.url`), the numeric status code, and the decoded JSON body. -/
structure HttpResponse where
  url : String
  status : Nat
  body : JVal

/-- The error message `BaseReader._get` formats for a non-200 response. -/
def statusMsg (url : String) (status : Nat) : String :=
  "Unable to read URL: " ++ url ++ " (status: " ++ toString status ++ ")"

/-- `BaseReader._get`: issues exactly one `session.get` call - modelled by
taking the sequence of results the transport would hand to successive calls
and returning, next to the outcome, the number of calls made. A transport
exception propagates unchanged (the code has no try/except); a response with
a status other than 200 raises `MetricsReaderError` with a message naming
the resolved url and the status; otherwise the response is returned. -/
def baseGet (transport : Nat → Except PyExc HttpResponse) :
    Except PyExc HttpResponse × Nat :=
  (match transport 0 with
   | .error e => .error e
   | .ok r =>
     if r.status ≠ 200 then
       .error (.metricsReaderError (statusMsg r.url r.status))
     else .ok r,
   1)

/-- C6: a non-200 response makes `_get` raise `MetricsReaderError` carrying
the resolved url and the numeric status; the transport is queried exactly
once; and a transport-level failure propagates unchanged, not wrapped. -/
theorem baseGet_status_gate (transport : Nat → Except PyExc HttpResponse) :
    (∀ r, transport 0 = .ok r → r.status ≠ 200 →
        baseGet transport = (.error (.metricsReaderError (statusMsg r.url r.status)), 1)) ∧
      (∀ e, transport 0 = .error e → baseGet transport = (.error e, 1)) ∧
      (baseGet transport).2 = 1 := by
  refine ⟨?_, ?_, rfl⟩
  · intro r hr hs
    simp [baseGet, hr, hs]
  · intro e he
    simp [baseGet, he]

/-- Witness for `baseGet_status_gate`: a transport answering 404 at a fixed
url makes `_get` raise the error naming that url and status. -/
theorem baseGet_status_gate_witness :
    baseGet (fun _ => .ok ⟨"http://h/render", 404, JVal.null⟩)
      = (.error (.metricsReaderError (statusMsg "http://h/render" 404)), 1) :=
  (baseGet_status_gate (fun _ => .ok ⟨"http://h/render", 404, JVal.null⟩)).1
    ⟨"http://h/render", 404, JVal.null⟩ rfl (by decide)

/-- The possible runtime kinds of the `targets` / `hosts` argument of the
`read` facades: a string, a list of target strings, a dict from label to
target, or any other Python value. -/
inductive TargetsArg where
  | str (s : String)
  | list (l : List String)
  | dict (d : List (String × String))
  | other
  deriving Repr

/-- The dispatch `GraphiteReader.read` performs on the type of `targets`,
recording the downloads `_download_single_metric` would be asked for, in
order (first component), and the exception raised, if any (second
component). Before the dispatch the reader checks that a base url is
configured; an argument that is neither `str` nor `list` nor `dict` raises
`TypeError` with no download performed. -/
def graphiteReadDispatch (url : String) (targets : TargetsArg) :
    List String × Option PyExc :=
  if url = "" then ([], some (.metricsReaderError "No URL specified"))
  else
    match targets with
    | .str s => ([s], none)
    | .list l => (l, none)
    | .dict d => (d.map Prod.snd, none)
    | .other => ([], some (.typeError "targets has to be of type str, list or dict"))

/-- The dispatch `PNP4NagiosReader.read` performs on the type of `hosts`
(current and legacy module alike): a string or a list is accepted; anything
else - a dict included - raises `TypeError('host has to be of type str')`
with no request made. -/
def pnpReadDispatch (hosts : TargetsArg) : List String × Option PyExc :=
  match hosts with
  | .str s => ([s], none)
  | .list l => (l, none)
  | .dict _ => ([], some (.typeError "host has to be of type str"))
  | .other => ([], some (.typeError "host has to be of type str"))

/-- C7 counterexample: the PNP4Nagios facade does not accept a label-target
mapping - a dict raises `TypeError` with no request performed, against the
claim that both facades accept all three kinds. -/
theorem pnp_read_dict_counterexample :
    pnpReadDispatch (.dict [("label", "host1")])
        = ([], some (.typeError "host has to be of type str")) ∧
      (pnpReadDispatch (.dict [("label", "host1")])).1 = [] := by
  exact ⟨rfl, rfl⟩

/-- C7 (amended): the Graphite facade accepts a string, a list, and a
label-target mapping; the PNP4Nagios facade accepts only a string or a list
and raises its type error on a mapping as well; in both facades every
unsupported kind raises a `TypeError` naming expected kinds before any I/O
is performed. -/
theorem read_dispatch_kinds (url : String) (hurl : url ≠ "") :
    (∀ s, graphiteReadDispatch url (.str s) = ([s], none)) ∧
      (∀ l, graphiteReadDispatch url (.list l) = (l, none)) ∧
      (∀ d, graphiteReadDispatch url (.dict d) = (d.map Prod.snd, none)) ∧
      graphiteReadDispatch url .other
        = ([], some (.typeError "targets has to be of type str, list or dict")) ∧
      (∀ s, pnpReadDispatch (.str s) = ([s], none)) ∧
      (∀ l, pnpReadDispatch (.list l) = (l, none)) ∧
      (∀ d, pnpReadDispatch (.dict d)
        = ([], some (.typeError "host has to be of type str"))) ∧
      pnpReadDispatch .other = ([], some (.typeError "host has to be of type str")) := by
  refine ⟨?_, ?_, ?_, ?_, fun s => rfl, fun l => rfl, fun d => rfl, rfl⟩ <;>
    simp [graphiteReadDispatch, hurl]

/-- Witness for `read_dispatch_kinds` at a concrete url and argument. -/
theorem read_dispatch_kinds_witness :
    ("http://h/" : String) ≠ "" ∧
      graphiteReadDispatch "http://h/" (.str "cpu.load") = (["cpu.load"], none) :=
  ⟨by decide, (read_dispatch_kinds "http://h/" (by decide)).1 "cpu.load"⟩

/-- Python truthiness of a decoded JSON value (`if not json_data: ...`):
null, false, zero, the empty string, the empty array and the empty object
are falsy. -/
def jTruthy : JVal → Bool
  | .null => false
  | .bool b => b
  | .num n => n != 0
  | .str s => s != ""
  | .arr l => !l.isEmpty
  | .obj l => !l.isEmpty

/-- Python subscription `j[k]` of a decoded JSON value by a string key:
a `KeyError` when the key is absent, a `TypeError` when the value is not
an object. -/
def jIndex (j : JVal) (k : String) : Except PyExc JVal :=
  match j with
  | .obj fields =>
    match fields.find? (fun p => p.1 == k) with
    | some p => .ok p.2
    | none => .error (.keyError k)
  | _ => .error (.typeError "value is not subscriptable by a string")

/-- Coercion of a JSON value to an array, failing as numpy / pandas would on
a malformed payload. -/
def asArr : JVal → Except PyExc (List JVal)
  | .arr l => .ok l
  | _ => .error (.typeError "expected a JSON array")

/-- Coercion of a JSON value to a string. -/
def asStr : JVal → Except PyExc String
  | .str s => .ok s
  | _ => .error (.typeError "expected a JSON string")

/-- Coercion of a JSON value to an integer (epoch-second timestamps). -/
def asNum : JVal → Except PyExc Int
  | .num n => .ok n
  | _ => .error (.typeError "expected a JSON number")

/-- The empty-payload message of `PNP4NagiosReader._read_single_metric`
(current module). -/
def pnpEmptyMsg (host service : String) : String :=
  "Received empty dataset for host " ++ host ++ " and service " ++ service

/-- The empty-payload message of `GraphiteReader._download_single_metric`. -/
def graphiteEmptyMsg (target : String) : String :=
  "Received empty dataset for target " ++ target

/-- The table a PNP4Nagios parse produces: the legend columns, the converted
row keys, and the raw per-row value arrays. -/
structure PnpTable where
  columns : List String
  rowKeys : List Instant
  values : List JVal

/-- The body of `_read_single_metric` shared verbatim by the current and the
legacy PNP4Nagios module after the (current-module-only) emptiness check:
`columns = json_data['meta']['legend']['entry']`, one `(t, v)` pair per
element of `json_data['data']['row']`, the index coerced to int32 and
converted to UTC nanosecond instants. -/
def pnpParseBody (json : JVal) : Except PyExc PnpTable := do
  let legend ← jIndex json "meta" >>= (jIndex · "legend") >>= (jIndex · "entry")
  let columns ← (← asArr legend).mapM asStr
  let rows ← jIndex json "data" >>= (jIndex · "row") >>= asArr
  let pairs ← rows.mapM (fun elem => do
    let t ← jIndex elem "t"
    let v ← jIndex elem "v"
    pure (t, v))
  let ts ← pairs.mapM (fun p => asNum p.1)
  pure ⟨columns, ts.map pnpRowKey, pairs.map Prod.snd⟩

/-- `PNP4NagiosReader._read_single_metric` of the current module
(PNP4Nagios/pnp4nagios.py), from the decoded JSON body on: an empty
(falsy) payload raises `MetricsReaderError` naming the host and the
service before any parsing. -/
def pnpReadSingle (host service : String) (json : JVal) : Except PyExc PnpTable :=
  if jTruthy json then pnpParseBody json
  else .error (.metricsReaderError (pnpEmptyMsg host service))

/-- `PNP4NagiosReader._read_single_metric` of the legacy module
(pnp4nagios.py), from the decoded JSON body on: there is no emptiness
check - the code subscripts `json_data['meta']` directly. -/
def legacyPnpReadSingle (json : JVal) : Except PyExc PnpTable :=
  pnpParseBody json

/-- One series of a Graphite render payload, parsed: the target name and the
`[value, epochSeconds]` datapoints. -/
def graphiteParseSeries (j : JVal) : Except PyExc (String × List (JVal × Int)) := do
  let target ← jIndex j "target" >>= asStr
  let dps ← jIndex j "datapoints" >>= asArr
  let pts ← dps.mapM (fun p =>
    match p with
    | .arr [v, t] => do
        let tn ← asNum t
        pure (v, tn)
    | _ => .error (.typeError "malformed datapoint"))
  pure (target, pts)

/-- The table a Graphite download produces: one column per series, each with
its nullable values keyed by converted UTC instants. -/
structure GraphiteTable where
  columns : List String
  series : List (List (JVal × Instant))

/-- `GraphiteReader._download_single_metric` in the json format, from the
decoded JSON body on: an empty (falsy) payload raises `MetricsReaderError`
naming the target; otherwise one DataFrame per returned series is built and
the epoch index converted to UTC nanosecond instants. -/
def graphiteDownloadSingle (target : String) (json : JVal) :
    Except PyExc GraphiteTable :=
  if jTruthy json then
    match json with
    | .arr series => do
        let parsed ← series.mapM graphiteParseSeries
        pure ⟨parsed.map Prod.fst,
          parsed.map (fun p => p.2.map (fun q => (q.1, graphiteRowKey q.2)))⟩
    | _ => .error (.typeError "expected a JSON array")
  else .error (.metricsReaderError (graphiteEmptyMsg target))

/-- C5: behavior of the three series parsers on an empty top-level payload.
The Graphite reader and the current PNP4Nagios reader raise the empty-dataset
`MetricsReaderError` naming the target respectively host and service; the
legacy PNP4Nagios reader has no emptiness check and instead fails with
`KeyError('meta')`, contradicting the claim that every variant raises the
empty-dataset error. -/
theorem empty_payload_behavior :
    graphiteDownloadSingle "cpu.load" (.arr [])
        = .error (.metricsReaderError (graphiteEmptyMsg "cpu.load")) ∧
      pnpReadSingle "host1" "svc" (.obj [])
        = .error (.metricsReaderError (pnpEmptyMsg "host1" "svc")) ∧
      legacyPnpReadSingle (.obj []) = .error (.keyError "meta") :=
  ⟨rfl, rfl, rfl⟩

/-- A node descriptor returned by the metrics find API, with each field
optional because the code accesses `metric['allowChildren']`, `metric['id']`
and `metric['leaf']` by key and a missing key raises. -/
structure GMetric where
  id : Option String
  leaf : Option Int
  allowChildren : Option Int
  deriving Repr

/-- Insertion into a Python set, modelled on lists: a duplicate is dropped.
CPython iterates a set in hash order, which is unspecified; the model keeps
first-insertion order, and no theorem below relies on that order - only on
membership and duplicate-freeness, which hold for every iteration order. -/
def pySetInsert (l : List String) (x : String) : List String :=
  if x ∈ l then l else l ++ [x]

/-- Folding a batch of insertions into a Python set model. -/
def pySetFold (init : List String) (xs : List String) : List String :=
  xs.foldl pySetInsert init

/-- The ids that the classification loop of `GraphiteReader.walk` inserts
into the internal-node set, in encounter order. -/
def internalIds (ms : List GMetric) : List String :=
  ms.filterMap (fun m => if m.allowChildren = some 1 then m.id else none)

/-- The ids that the classification loop of `GraphiteReader.walk` inserts
into the leaf set, in encounter order. -/
def leafIds (ms : List GMetric) : List String :=
  ms.filterMap (fun m => if m.leaf = some 1 then m.id else none)

/-- The classification loop of `GraphiteReader.walk`: for every descriptor
returned by `find`, add its id to the internal-node set when
`allowChildren == 1` and to the leaf set when `leaf == 1`; any missing key
raises `MetricsReaderError('Unknown metrics format')` (the caught
`KeyError`). -/
def processMetrics :
    List GMetric → List String × List String → Except PyExc (List String × List String)
  | [], acc => .ok acc
  | m :: rest, (ints, lfs) =>
    match m.allowChildren with
    | none => .error (.metricsReaderError "Unknown metrics format")
    | some a =>
      let step1 : Except PyExc (List String) :=
        if a = 1 then
          match m.id with
          | none => .error (.metricsReaderError "Unknown metrics format")
          | some i => .ok (pySetInsert ints i)
        else .ok ints
      match step1 with
      | .error e => .error e
      | .ok ints2 =>
        match m.leaf with
        | none => .error (.metricsReaderError "Unknown metrics format")
        | some l =>
          if l = 1 then
            match m.id with
            | none => .error (.metricsReaderError "Unknown metrics format")
            | some i => processMetrics rest (ints2, pySetInsert lfs i)
          else processMetrics rest (ints2, lfs)

/-- A triple yielded by `GraphiteReader.walk`: the current path, the
internal nodes and the leaves. -/
abbrev WalkTriple := String × List String × List String

/-- Sequencing of the recursive generator calls
`for node in internal_nodes: for branch in self.walk(node, ...)`: the
triples already yielded survive, and the first raised exception aborts the
remaining siblings. -/
def walkChildren (w : String → List WalkTriple × Option PyExc) (ints : List String) :
    List WalkTriple × Option PyExc :=
  ints.foldl
    (fun acc n =>
      match acc.2 with
      | some _ => acc
      | none =>
        let r := w n
        (acc.1 ++ r.1, r.2))
    ([], none)

/-- `GraphiteReader.walk`, driven by a `find` oracle and a recursion-depth
fuel (the model's substitute for the unbounded generator recursion; every
theorem quantifies over the fuel or instantiates it large enough). The
query pattern is `'*'` when `top` is `None` and `top.rstrip('.*') + '.*'`
otherwise; the classification loop runs before the first yield, so its
error aborts the walk with no triple; with `top = None` the yield
expression evaluates `top.rstrip('.*')` on `None` and raises
`AttributeError`; otherwise the triple is yielded first and the walk
recurses into every internal node. -/
def walkFuel (find : String → List GMetric) :
    Nat → Option String → List WalkTriple × Option PyExc
  | 0, _ => ([], none)
  | fuel + 1, top =>
    let path := match top with
      | none => "*"
      | some t => pyRstripDotStar t ++ ".*"
    match processMetrics (find path) ([], []) with
    | .error e => ([], some e)
    | .ok (ints, lfs) =>
      match top with
      | none => ([], some (.attributeError "NoneType object has no attribute rstrip"))
      | some t =>
        let rest := walkChildren (fun n => walkFuel find fuel (some n)) ints
        ((pyRstripDotStar t, ints, lfs) :: rest.1, rest.2)

theorem pySetInsert_nodup (l : List String) (x : String) (h : l.Nodup) :
    (pySetInsert l x).Nodup := by
  unfold pySetInsert
  split
  · exact h
  · next hx => simpa [List.nodup_append] using ⟨h, hx⟩

theorem mem_pySetInsert (l : List String) (x y : String) :
    y ∈ pySetInsert l x ↔ y ∈ l ∨ y = x := by
  unfold pySetInsert
  split
  · next hx =>
    constructor
    · exact Or.inl
    · rintro (h | rfl) <;> [exact h; exact hx]
  · simp

theorem pySetFold_nodup (xs : List String) (init : List String) (h : init.Nodup) :
    (pySetFold init xs).Nodup := by
  induction xs generalizing init with
  | nil => exact h
  | cons x xs ih => exact ih _ (pySetInsert_nodup _ _ h)

theorem mem_pySetFold (xs : List String) (init : List String) (y : String) :
    y ∈ pySetFold init xs ↔ y ∈ init ∨ y ∈ xs := by
  induction xs generalizing init with
  | nil => simp [pySetFold]
  | cons x xs ih =>
    have hstep : pySetFold init (x :: xs) = pySetFold (pySetInsert init x) xs := rfl
    rw [hstep, ih, mem_pySetInsert]
    constructor
    · rintro ((h | h) | h)
      · exact Or.inl h
      · exact Or.inr (by simp [h])
      · exact Or.inr (by simp [h])
    · rintro (h | h)
      · exact Or.inl (Or.inl h)
      · rcases List.mem_cons.mp h with rfl | h
        · exact Or.inl (Or.inr rfl)
        · exact Or.inr h

theorem processMetrics_ok (ms : List GMetric)
    (H : ∀ m ∈ ms, m.allowChildren.isSome ∧ m.leaf.isSome ∧ m.id.isSome)
    (ints lfs : List String) :
    processMetrics ms (ints, lfs)
      = .ok (pySetFold ints (internalIds ms), pySetFold lfs (leafIds ms)) := by
  induction ms generalizing ints lfs with
  | nil => rfl
  | cons m rest ih =>
    obtain ⟨ha, hl, hi⟩ := H m (List.mem_cons_self m rest)
    have Hrest : ∀ x ∈ rest, x.allowChildren.isSome ∧ x.leaf.isSome ∧ x.id.isSome :=
      fun x hx => H x (List.mem_cons_of_mem m hx)
    obtain ⟨a, ha⟩ := Option.isSome_iff_exists.mp ha
    obtain ⟨l, hl⟩ := Option.isSome_iff_exists.mp hl
    obtain ⟨i, hi⟩ := Option.isSome_iff_exists.mp hi
    by_cases h1 : a = 1 <;> by_cases h2 : l = 1 <;>
      simp [processMetrics, internalIds, leafIds, ha, hl, hi, h1, h2, ih Hrest,
        pySetFold]

/-- C3 (amended): for every starting path, `walk` yields the triple
`(currentPath, internalNodes, leaves)` before any triple obtained by
recursing into the internal nodes, and the recursion covers the internal
nodes in the order of the emitted list. The emitted lists, however, come
from Python sets: they are duplicate-free and contain exactly the
qualifying node ids of the `find` response - they are not the `find`
response order verbatim (see `walk_order_counterexample`). -/
theorem walk_preorder_emission (find : String → List GMetric) (fuel : Nat) (t : String)
    (H : ∀ m ∈ find (pyRstripDotStar t ++ ".*"),
      m.allowChildren.isSome ∧ m.leaf.isSome ∧ m.id.isSome) :
    ∃ ints lfs,
      processMetrics (find (pyRstripDotStar t ++ ".*")) ([], []) = .ok (ints, lfs) ∧
      walkFuel find (fuel + 1) (some t)
        = ((pyRstripDotStar t, ints, lfs)
              :: (walkChildren (fun n => walkFuel find fuel (some n)) ints).1,
            (walkChildren (fun n => walkFuel find fuel (some n)) ints).2) ∧
      ints.Nodup ∧ lfs.Nodup ∧
      (∀ x, x ∈ ints ↔ x ∈ internalIds (find (pyRstripDotStar t ++ ".*"))) ∧
      (∀ x, x ∈ lfs ↔ x ∈ leafIds (find (pyRstripDotStar t ++ ".*"))) := by
  refine ⟨pySetFold [] (internalIds (find (pyRstripDotStar t ++ ".*"))),
    pySetFold [] (leafIds (find (pyRstripDotStar t ++ ".*"))),
    processMetrics_ok _ H [] [], ?_, ?_, ?_, ?_, ?_⟩
  · simp [walkFuel, processMetrics_ok _ H [] []]
  · exact pySetFold_nodup _ _ List.nodup_nil
  · exact pySetFold_nodup _ _ List.nodup_nil
  · intro x
    simp [mem_pySetFold]
  · intro x
    simp [mem_pySetFold]

/-- A concrete find oracle for witnesses: a single well-formed leaf node. -/
def cWalkFind : String → List GMetric :=
  fun _ => [⟨some "x", some 1, some 0⟩]

/-- Witness for `walk_preorder_emission` at a concrete oracle and path. -/
theorem walk_preorder_emission_witness :
    (∀ m ∈ cWalkFind (pyRstripDotStar "a" ++ ".*"),
        m.allowChildren.isSome ∧ m.leaf.isSome ∧ m.id.isSome) ∧
      (∃ ints lfs,
        processMetrics (cWalkFind (pyRstripDotStar "a" ++ ".*")) ([], []) = .ok (ints, lfs) ∧
        walkFuel cWalkFind (0 + 1) (some "a")
          = ((pyRstripDotStar "a", ints, lfs)
                :: (walkChildren (fun n => walkFuel cWalkFind 0 (some n)) ints).1,
              (walkChildren (fun n => walkFuel cWalkFind 0 (some n)) ints).2) ∧
        ints.Nodup ∧ lfs.Nodup ∧
        (∀ x, x ∈ ints ↔ x ∈ internalIds (cWalkFind (pyRstripDotStar "a" ++ ".*"))) ∧
        (∀ x, x ∈ lfs ↔ x ∈ leafIds (cWalkFind (pyRstripDotStar "a" ++ ".*")))) :=
  ⟨by decide, walk_preorder_emission cWalkFind 0 "a" (by decide)⟩

/-- A find oracle returning the same leaf descriptor twice. -/
def cDupFind : String → List GMetric :=
  fun _ => [⟨some "x", some 1, some 0⟩, ⟨some "x", some 1, some 0⟩]

/-- C3 counterexample: when `find` returns the same leaf id twice, the
emitted leaves list is the deduplicated `["x"]`, not the list of leaf ids in
the order `find` returned them (`["x", "x"]`): the sets reorder and collapse
the `find` response, so the emitted lists are not it verbatim. -/
theorem walk_order_counterexample :
    walkFuel cDupFind 2 (some "a") = ([("a", [], ["x"])], none) ∧
      leafIds (cDupFind "a.*") = ["x", "x"] ∧
      walkFuel cDupFind 2 (some "a") ≠ ([("a", [], leafIds (cDupFind "a.*"))], none) := by
  exact ⟨rfl, rfl, by decide⟩

/-- C10: calling `walk` with no starting path sets the query pattern to the
root wildcard, classifies whatever `find` returns, and then fails with an
`AttributeError` when the first yield evaluates `top.rstrip('.*')` on
`None` - no triple is ever yielded. -/
theorem walk_none_attribute_error (find : String → List GMetric) (fuel : Nat)
    (H : ∀ m ∈ find "*", m.allowChildren.isSome ∧ m.leaf.isSome ∧ m.id.isSome) :
    walkFuel find (fuel + 1) none
      = ([], some (.attributeError "NoneType object has no attribute rstrip")) := by
  simp [walkFuel, processMetrics_ok _ H [] []]

/-- Witness for `walk_none_attribute_error` at a concrete oracle. -/
theorem walk_none_attribute_error_witness :
    (∀ m ∈ cWalkFind "*", m.allowChildren.isSome ∧ m.leaf.isSome ∧ m.id.isSome) ∧
      walkFuel cWalkFind (0 + 1) none
        = ([], some (PyExc.attributeError "NoneType object has no attribute rstrip")) :=
  ⟨by decide, walk_none_attribute_error cWalkFind 0 (by decide)⟩

end MetricsReader
